import Mathlib

/-!
Shallow embedding of the VADERBOOT signal scoring and decision engine
(src/app.py).  Python floats are modelled as rationals.  Python `round`
(round-half-to-even) is modelled by `rhe` and `pyround`.  Market data that
may be missing upstream is modelled with `Option`.
-/

namespace Vaderboot

/-- Round-half-to-even of a rational to an integer, the tie-breaking rule of
Python `round`. -/
def rhe (q : ℚ) : ℤ :=
  if q - ⌊q⌋ < 1/2 then ⌊q⌋
  else if 1/2 < q - ⌊q⌋ then ⌊q⌋ + 1
  else if 2 ∣ ⌊q⌋ then ⌊q⌋ else ⌊q⌋ + 1

/-- Python `round(q, n)` on our rational model of floats. -/
def pyround (q : ℚ) (n : ℕ) : ℚ := (rhe (q * 10 ^ n) : ℚ) / 10 ^ n

lemma rhe_cases (q : ℚ) : rhe q = ⌊q⌋ ∨ rhe q = ⌊q⌋ + 1 := by
  unfold rhe
  split_ifs <;> simp

lemma floor_le_rhe (q : ℚ) : ⌊q⌋ ≤ rhe q := by
  rcases rhe_cases q with h | h <;> omega

lemma rhe_le_add_half (q : ℚ) : (rhe q : ℚ) ≤ q + 1/2 := by
  have hfl : (⌊q⌋ : ℚ) ≤ q := Int.floor_le q
  unfold rhe
  split_ifs with h1 h2 h3 <;> push_cast <;> linarith

lemma sub_half_le_rhe (q : ℚ) : q - 1/2 ≤ (rhe q : ℚ) := by
  have hfl : (⌊q⌋ : ℚ) ≤ q := Int.floor_le q
  have hlt : q < ⌊q⌋ + 1 := Int.lt_floor_add_one q
  unfold rhe
  split_ifs with h1 h2 h3 <;> push_cast <;> linarith

lemma rhe_nonneg (q : ℚ) (h : 0 ≤ q) : 0 ≤ rhe q :=
  le_trans (Int.floor_nonneg.mpr h) (floor_le_rhe q)

lemma rhe_intCast (n : ℤ) : rhe (n : ℚ) = n := by
  unfold rhe
  rw [Int.floor_intCast]
  simp

lemma pyround_nonneg (q : ℚ) (n : ℕ) (h : 0 ≤ q) : 0 ≤ pyround q n := by
  unfold pyround
  apply div_nonneg
  · exact_mod_cast rhe_nonneg _ (by positivity)
  · positivity

lemma pyround_eq_of_int (q : ℚ) (n : ℕ) (k : ℤ) (h : q * 10 ^ n = (k : ℚ)) :
    pyround q n = q := by
  have hpow : (0:ℚ) < 10 ^ n := by positivity
  unfold pyround
  rw [h, rhe_intCast, ← h, mul_div_assoc, div_self (ne_of_gt hpow), mul_one]

lemma le_pyround_of_le (q : ℚ) (n : ℕ) (k : ℤ) (h : (k : ℚ) ≤ q * 10 ^ n) :
    (k : ℚ) / 10 ^ n ≤ pyround q n := by
  have hpow : (0:ℚ) < 10 ^ n := by positivity
  unfold pyround
  rw [div_le_div_iff_of_pos_right hpow]
  exact_mod_cast le_trans (Int.le_floor.mpr h) (floor_le_rhe _)

lemma pyround_lt_bound (q : ℚ) (n : ℕ) (c : ℚ) (h : pyround q n < c) :
    q < c + 1 / (2 * 10 ^ n) := by
  have hpow : (0:ℚ) < 10 ^ n := by positivity
  have h1 : (rhe (q * 10 ^ n) : ℚ) < c * 10 ^ n := by
    have := (div_lt_iff₀ hpow).mp h
    simpa using this
  have h2 : q * 10 ^ n - 1/2 ≤ (rhe (q * 10 ^ n) : ℚ) := sub_half_le_rhe _
  have h3 : q * 10 ^ n < c * 10 ^ n + 1/2 := by linarith
  have h4 : q < (c * 10 ^ n + 1/2) / 10 ^ n := by
    rw [lt_div_iff₀ hpow]
    linarith
  calc q < (c * 10 ^ n + 1/2) / 10 ^ n := h4
    _ = c + 1 / (2 * 10 ^ n) := by field_simp; ring

/-- Technical score, src/app.py line 51:
`min(1.0, (plot_0/70 + plot_2/1.5 + (1 if plot_1>0 else 0))/3)`. -/
def technical_score (r m v : ℚ) : ℚ :=
  min 1.0 ((r / 70 + v / 1.5 + (if m > 0 then 1 else 0)) / 3)

lemma technical_score_le_one (r m v : ℚ) : technical_score r m v ≤ 1 := by
  have := min_le_left (1.0 : ℚ) ((r / 70 + v / 1.5 + (if m > 0 then 1 else 0)) / 3)
  unfold technical_score
  linarith

lemma technical_score_nonneg (r m v : ℚ) (hr : 0 ≤ r) (hv : 0 ≤ v) :
    0 ≤ technical_score r m v := by
  have hite : (0:ℚ) ≤ if m > 0 then 1 else 0 := by split_ifs <;> norm_num
  have h70 : (0:ℚ) ≤ r / 70 := by positivity
  have h15 : (0:ℚ) ≤ v / 1.5 := by positivity
  unfold technical_score
  apply le_min (by norm_num)
  positivity

/-- Kelly fraction `max(0, (prob*(rr+1) - 1)/rr)`, src/app.py line 278. -/
def kelly_fraction (prob rr : ℚ) : ℚ := max 0 ((prob * (rr + 1) - 1) / rr)

/-- Position sizer: `kelly_pct = round(kelly, 4)` with the default
reward:risk ratio 2.8, src/app.py lines 267-282. -/
def quant_analysis (prob : ℚ) : ℚ := pyround (kelly_fraction prob 2.8) 4

/-- Metrics derived by `fundamental_analysis_historical` from the five
provider queries; `none` models a sub-metric whose query failed or whose
data was missing/insufficient (src/app.py lines 114-236). -/
structure FundMetrics where
  volatility : Option ℚ
  revenue_growth : Option ℚ
  margin_trend : Option ℚ
  fcf_growth : Option ℚ
  forwardPE : Option ℚ
  trailingPE : Option ℚ
  returnOnEquity : Option ℚ
  debtToEquity : Option ℚ
  deriving DecidableEq

/-- Volatility scoring, src/app.py lines 127-130. -/
def volatility_points : Option ℚ → ℚ
  | none => 0
  | some vol => if vol < 0.20 then 1 else if vol < 0.35 then 0.5 else 0

/-- Revenue CAGR scoring, src/app.py lines 151-156. -/
def revenue_points : Option ℚ → ℚ
  | none => 0
  | some g => if g > 0.20 then 2 else if g > 0.10 then 1 else if g > 0 then 0.5 else 0

/-- Margin trend scoring, src/app.py lines 178-181. -/
def margin_points : Option ℚ → ℚ
  | none => 0
  | some t => if t > 0.05 then 2 else if t > 0 then 1 else 0

/-- Free cash flow growth scoring, src/app.py lines 200-203. -/
def fcf_points : Option ℚ → ℚ
  | none => 0
  | some g => if g > 0.15 then 2 else if g > 0 then 1 else 0

/-- `pe = info.get('forwardPE', info.get('trailingPE', 999))`, src/app.py
line 213. -/
def pe_value (m : FundMetrics) : ℚ := m.forwardPE.getD (m.trailingPE.getD 999)

/-- P/E scoring, src/app.py lines 214-217. -/
def pe_points (pe : ℚ) : ℚ := if pe < 15 then 2 else if pe < 25 then 1 else 0

/-- ROE scoring with `info.get('returnOnEquity', 0)`, src/app.py lines
220-224. -/
def roe_points (o : Option ℚ) : ℚ :=
  if o.getD 0 > 0.20 then 1 else if o.getD 0 > 0.15 then 0.5 else 0

/-- Debt/Equity scoring with `info.get('debtToEquity', 999)`, src/app.py
lines 227-231. -/
def debt_points (o : Option ℚ) : ℚ :=
  if o.getD 999 < 50 then 1 else if o.getD 999 < 100 then 0.5 else 0

/-- Accumulated score over the seven sub-metrics, src/app.py lines 116-231. -/
def total_points (m : FundMetrics) : ℚ :=
  volatility_points m.volatility + revenue_points m.revenue_growth +
    margin_points m.margin_trend + fcf_points m.fcf_growth +
    pe_points (pe_value m) + roe_points m.returnOnEquity +
    debt_points m.debtToEquity

/-- `fundamental_score = round(min(1.0, score / max_score), 3)` with
`max_score = 10`, src/app.py lines 117, 239, 242. -/
def fundamental_score (m : FundMetrics) : ℚ :=
  pyround (min 1.0 (total_points m / 10)) 3

/-- Metrics when every provider query fails: the outer `except` of
`fundamental_analysis_historical` returns the all-default dict,
src/app.py lines 252-264. -/
def allFailedMetrics : FundMetrics := ⟨none, none, none, none, none, none, none, none⟩

/-- CAGR of a usable (dropna-ed, index-sorted) series, guarded on having at
least 2 periods: `(last/first) ** (1/years) - 1` with `years = N - 1`,
src/app.py lines 145-148 and 194-197.  The power function `pw` is a
parameter of the model since float `**` is not a rational operation. -/
def cagr (pw : ℚ → ℚ → ℚ) : List ℚ → Option ℚ
  | [] => none
  | [_] => none
  | x0 :: x1 :: rest =>
      some (pw ((x1 :: rest).getLast (List.cons_ne_nil x1 rest) / x0)
        (1 / ((rest.length : ℚ) + 1)) - 1)

/-- Combined score `technical_score * 0.7 + fundamental_score * 0.3`,
src/app.py line 57. -/
def combined_score (ts fs : ℚ) : ℚ := ts * 0.7 + fs * 0.3

/-- `ml_prob = 0.5 + combined_score * 0.3`, src/app.py line 58. -/
def ml_prob (ts fs : ℚ) : ℚ := 0.5 + combined_score ts fs * 0.3

/-- Decision threshold, src/app.py line 76. -/
def THRESHOLD : ℚ := 0.60

inductive Decision where
  | TRADE
  | SKIP
  deriving DecidableEq

/-- Terminal outcome of the scoring pipeline: the `filtered` early return
carries `kelly_pct` and the unrounded `ml_prob` (src/app.py lines 68-73);
the `processed` response carries the rounded fields and the decision
(src/app.py lines 85-93). -/
inductive Outcome where
  | filtered (kelly ml_prob : ℚ)
  | processed (ml_prob technical fundamental kelly : ℚ) (decision : Decision)
  deriving DecidableEq

def Outcome.isFiltered : Outcome → Bool
  | Outcome.filtered _ _ => true
  | Outcome.processed _ _ _ _ _ => false

def Outcome.decisionOf : Outcome → Option Decision
  | Outcome.filtered _ _ => none
  | Outcome.processed _ _ _ _ d => some d

/-- Scoring pipeline of the webhook after validation and float conversion,
src/app.py lines 51-93. -/
def processSignal (r m v : ℚ) (fund : FundMetrics) : Outcome :=
  let ts := technical_score r m v
  let fs := fundamental_score fund
  let p := ml_prob ts fs
  let kelly := quant_analysis p
  if kelly < 0.01 then Outcome.filtered kelly p
  else
    Outcome.processed (pyround p 3) (pyround ts 3) (pyround fs 3) (pyround kelly 4)
      (if p ≥ THRESHOLD then Decision.TRADE else Decision.SKIP)

lemma volatility_points_mem (o : Option ℚ) :
    volatility_points o = 0 ∨ volatility_points o = 1/2 ∨ volatility_points o = 1 ∨
      volatility_points o = 2 := by
  cases o with
  | none => simp [volatility_points]
  | some vol =>
      simp only [volatility_points]
      split_ifs <;> norm_num

lemma revenue_points_mem (o : Option ℚ) :
    revenue_points o = 0 ∨ revenue_points o = 1/2 ∨ revenue_points o = 1 ∨
      revenue_points o = 2 := by
  cases o with
  | none => simp [revenue_points]
  | some g =>
      simp only [revenue_points]
      split_ifs <;> norm_num

lemma margin_points_mem (o : Option ℚ) :
    margin_points o = 0 ∨ margin_points o = 1/2 ∨ margin_points o = 1 ∨
      margin_points o = 2 := by
  cases o with
  | none => simp [margin_points]
  | some t =>
      simp only [margin_points]
      split_ifs <;> norm_num

lemma fcf_points_mem (o : Option ℚ) :
    fcf_points o = 0 ∨ fcf_points o = 1/2 ∨ fcf_points o = 1 ∨ fcf_points o = 2 := by
  cases o with
  | none => simp [fcf_points]
  | some g =>
      simp only [fcf_points]
      split_ifs <;> norm_num

lemma pe_points_mem (pe : ℚ) :
    pe_points pe = 0 ∨ pe_points pe = 1/2 ∨ pe_points pe = 1 ∨ pe_points pe = 2 := by
  unfold pe_points
  split_ifs <;> norm_num

lemma roe_points_mem (o : Option ℚ) :
    roe_points o = 0 ∨ roe_points o = 1/2 ∨ roe_points o = 1 ∨ roe_points o = 2 := by
  unfold roe_points
  split_ifs <;> norm_num

lemma debt_points_mem (o : Option ℚ) :
    debt_points o = 0 ∨ debt_points o = 1/2 ∨ debt_points o = 1 ∨ debt_points o = 2 := by
  unfold debt_points
  split_ifs <;> norm_num

lemma points_aux (x : ℚ) (h : x = 0 ∨ x = 1/2 ∨ x = 1 ∨ x = 2) :
    0 ≤ x ∧ ∃ k : ℤ, x = k / 2 := by
  rcases h with h | h | h | h <;> subst h
  · exact ⟨by norm_num, 0, by norm_num⟩
  · exact ⟨by norm_num, 1, by norm_num⟩
  · exact ⟨by norm_num, 2, by norm_num⟩
  · exact ⟨by norm_num, 4, by norm_num⟩

lemma total_points_spec (m : FundMetrics) :
    0 ≤ total_points m ∧ ∃ k : ℤ, total_points m = k / 2 := by
  obtain ⟨h1, k1, e1⟩ := points_aux _ (volatility_points_mem m.volatility)
  obtain ⟨h2, k2, e2⟩ := points_aux _ (revenue_points_mem m.revenue_growth)
  obtain ⟨h3, k3, e3⟩ := points_aux _ (margin_points_mem m.margin_trend)
  obtain ⟨h4, k4, e4⟩ := points_aux _ (fcf_points_mem m.fcf_growth)
  obtain ⟨h5, k5, e5⟩ := points_aux _ (pe_points_mem (pe_value m))
  obtain ⟨h6, k6, e6⟩ := points_aux _ (roe_points_mem m.returnOnEquity)
  obtain ⟨h7, k7, e7⟩ := points_aux _ (debt_points_mem m.debtToEquity)
  unfold total_points
  constructor
  · linarith
  · refine ⟨k1 + k2 + k3 + k4 + k5 + k6 + k7, ?_⟩
    rw [e1, e2, e3, e4, e5, e6, e7]
    push_cast
    ring

lemma fundamental_score_eq (m : FundMetrics) :
    fundamental_score m = min 1.0 (total_points m / 10) := by
  obtain ⟨-, k, hk⟩ := total_points_spec m
  apply pyround_eq_of_int _ _ (min 1000 (50 * k))
  have hcast : ((min 1000 (50 * k) : ℤ) : ℚ) = min (1000 : ℚ) (50 * (k : ℚ)) := by
    push_cast
    rfl
  rw [hcast, hk]
  rcases le_total (1.0 : ℚ) ((k : ℚ) / 2 / 10) with h | h
  · rw [min_eq_left h, min_eq_left (by norm_num at h ⊢; linarith)]
    norm_num
  · rw [min_eq_right h, min_eq_right (by norm_num at h ⊢; linarith)]
    ring

lemma fundamental_score_nonneg (m : FundMetrics) : 0 ≤ fundamental_score m := by
  obtain ⟨h, -⟩ := total_points_spec m
  rw [fundamental_score_eq]
  exact le_min (by norm_num) (by positivity)

lemma fundamental_score_le_one (m : FundMetrics) : fundamental_score m ≤ 1 := by
  rw [fundamental_score_eq]
  have := min_le_left (1.0 : ℚ) (total_points m / 10)
  linarith

lemma ml_prob_ge_half (ts fs : ℚ) (hts : 0 ≤ ts) (hfs : 0 ≤ fs) :
    1/2 ≤ ml_prob ts fs := by
  unfold ml_prob combined_score
  norm_num
  linarith

lemma ml_prob_le (ts fs : ℚ) (hts : ts ≤ 1) (hfs : fs ≤ 1) :
    ml_prob ts fs ≤ 4/5 := by
  unfold ml_prob combined_score
  norm_num
  linarith

/-- Modelled from the spec: volatility row of the weight table in section 4.2
(`< 20%` gives 1, `20%-35%` gives 0.5), with an unavailable metric
contributing zero. -/
def spec_vol_points : Option ℚ → ℚ
  | none => 0
  | some vol => if vol < 1/5 then 1 else if 1/5 ≤ vol ∧ vol < 7/20 then 1/2 else 0

/-- Modelled from the spec: revenue CAGR row of the weight table
(`> 20%` gives 2, `10%-20%` gives 1, `0%-10%` gives 0.5). -/
def spec_rev_points : Option ℚ → ℚ
  | none => 0
  | some g =>
      if 1/5 < g then 2
      else if 1/10 < g ∧ g ≤ 1/5 then 1
      else if 0 < g ∧ g ≤ 1/10 then 1/2
      else 0

/-- Modelled from the spec: margin trend row of the weight table
(`> +5pp` gives 2, `> 0` gives 1). -/
def spec_margin_points : Option ℚ → ℚ
  | none => 0
  | some t => if 1/20 < t then 2 else if 0 < t ∧ t ≤ 1/20 then 1 else 0

/-- Modelled from the spec: free-cash-flow CAGR row of the weight table
(`> 15%` gives 2, `> 0` gives 1). -/
def spec_fcf_points : Option ℚ → ℚ
  | none => 0
  | some g => if 3/20 < g then 2 else if 0 < g ∧ g ≤ 3/20 then 1 else 0

/-- Modelled from the spec: forward P/E with trailing fallback
(`< 15` gives 2, `< 25` gives 1), zero when neither is available. -/
def spec_pe_points : Option ℚ → Option ℚ → ℚ
  | some pe, _ => if pe < 15 then 2 else if 15 ≤ pe ∧ pe < 25 then 1 else 0
  | none, some pe => if pe < 15 then 2 else if 15 ≤ pe ∧ pe < 25 then 1 else 0
  | none, none => 0

/-- Modelled from the spec: return-on-equity row of the weight table
(`> 20%` gives 1, `> 15%` gives 0.5). -/
def spec_roe_points : Option ℚ → ℚ
  | none => 0
  | some roe => if 1/5 < roe then 1 else if 3/20 < roe ∧ roe ≤ 1/5 then 1/2 else 0

/-- Modelled from the spec: debt-to-equity row of the weight table
(`< 50` gives 1, `< 100` gives 0.5). -/
def spec_debt_points : Option ℚ → ℚ
  | none => 0
  | some d => if d < 50 then 1 else if 50 ≤ d ∧ d < 100 then 1/2 else 0

/-- Modelled from the spec: accumulated points of the section 4.2 table. -/
def spec_points (m : FundMetrics) : ℚ :=
  spec_vol_points m.volatility + spec_rev_points m.revenue_growth +
    spec_margin_points m.margin_trend + spec_fcf_points m.fcf_growth +
    spec_pe_points m.forwardPE m.trailingPE + spec_roe_points m.returnOnEquity +
    spec_debt_points m.debtToEquity

lemma vol_points_eq (o : Option ℚ) : volatility_points o = spec_vol_points o := by
  cases o with
  | none => rfl
  | some vol =>
      simp only [volatility_points, spec_vol_points]
      split_ifs <;> first
        | rfl
        | (norm_num; done)
        | (exfalso; try (simp only [not_and_or] at *); all_goals (try (casesm* _ ∨ _, _ ∧ _)); all_goals linarith)

lemma rev_points_eq (o : Option ℚ) : revenue_points o = spec_rev_points o := by
  cases o with
  | none => rfl
  | some g =>
      simp only [revenue_points, spec_rev_points]
      split_ifs <;> first
        | rfl
        | (norm_num; done)
        | (exfalso; try (simp only [not_and_or] at *); all_goals (try (casesm* _ ∨ _, _ ∧ _)); all_goals linarith)

lemma margin_points_eq (o : Option ℚ) : margin_points o = spec_margin_points o := by
  cases o with
  | none => rfl
  | some t =>
      simp only [margin_points, spec_margin_points]
      split_ifs <;> first
        | rfl
        | (norm_num; done)
        | (exfalso; try (simp only [not_and_or] at *); all_goals (try (casesm* _ ∨ _, _ ∧ _)); all_goals linarith)

lemma fcf_points_eq (o : Option ℚ) : fcf_points o = spec_fcf_points o := by
  cases o with
  | none => rfl
  | some g =>
      simp only [fcf_points, spec_fcf_points]
      split_ifs <;> first
        | rfl
        | (norm_num; done)
        | (exfalso; try (simp only [not_and_or] at *); all_goals (try (casesm* _ ∨ _, _ ∧ _)); all_goals linarith)

lemma pe_points_eq (m : FundMetrics) :
    pe_points (pe_value m) = spec_pe_points m.forwardPE m.trailingPE := by
  cases hf : m.forwardPE with
  | some pe =>
      simp only [pe_points, pe_value, hf, Option.getD_some, spec_pe_points]
      split_ifs <;> first
        | rfl
        | (norm_num; done)
        | (exfalso; try (simp only [not_and_or] at *); all_goals (try (casesm* _ ∨ _, _ ∧ _)); all_goals linarith)
  | none =>
      cases ht : m.trailingPE with
      | some pe =>
          simp only [pe_points, pe_value, hf, ht, Option.getD_some, Option.getD_none,
            spec_pe_points]
          split_ifs <;> first
        | rfl
        | (norm_num; done)
        | (exfalso; try (simp only [not_and_or] at *); all_goals (try (casesm* _ ∨ _, _ ∧ _)); all_goals linarith)
      | none =>
          simp only [pe_points, pe_value, hf, ht, Option.getD_none, spec_pe_points]
          norm_num

lemma roe_points_eq (o : Option ℚ) : roe_points o = spec_roe_points o := by
  cases o with
  | none =>
      simp only [roe_points, spec_roe_points, Option.getD_none]
      norm_num
  | some roe =>
      simp only [roe_points, spec_roe_points, Option.getD_some]
      split_ifs <;> first
        | rfl
        | (norm_num; done)
        | (exfalso; try (simp only [not_and_or] at *); all_goals (try (casesm* _ ∨ _, _ ∧ _)); all_goals linarith)

lemma debt_points_eq (o : Option ℚ) : debt_points o = spec_debt_points o := by
  cases o with
  | none =>
      simp only [debt_points, spec_debt_points, Option.getD_none]
      norm_num
  | some d =>
      simp only [debt_points, spec_debt_points, Option.getD_some]
      split_ifs <;> first
        | rfl
        | (norm_num; done)
        | (exfalso; try (simp only [not_and_or] at *); all_goals (try (casesm* _ ∨ _, _ ∧ _)); all_goals linarith)

lemma total_points_eq_spec (m : FundMetrics) : total_points m = spec_points m := by
  unfold total_points spec_points
  rw [vol_points_eq, rev_points_eq, margin_points_eq, fcf_points_eq, pe_points_eq,
    roe_points_eq, debt_points_eq]

/-- JSON payload value as seen by `float(...)`: either a value the
conversion accepts, or one on which it raises. -/
inductive JVal where
  | num (val : ℚ)
  | bad
  deriving DecidableEq

/-- `float(x)`: `some` when the conversion succeeds, `none` when it raises. -/
def toFloat : JVal → Option ℚ
  | JVal.num q => some q
  | JVal.bad => none

/-- Request body fields used by the webhook. -/
structure Payload where
  ticker : Option JVal
  close : Option JVal
  action : Option JVal
  plot_0 : Option JVal
  plot_1 : Option JVal
  plot_2 : Option JVal
  deriving DecidableEq

inductive ReqField where
  | ticker
  | close
  | action
  | plot_0
  | plot_1
  | plot_2
  deriving DecidableEq

/-- `field in data`, src/app.py line 35. -/
def present (p : Payload) : ReqField → Bool
  | ReqField.ticker => p.ticker.isSome
  | ReqField.close => p.close.isSome
  | ReqField.action => p.action.isSome
  | ReqField.plot_0 => p.plot_0.isSome
  | ReqField.plot_1 => p.plot_1.isSome
  | ReqField.plot_2 => p.plot_2.isSome

/-- `required_fields = ['ticker', 'plot_0', 'plot_1', 'plot_2']`,
src/app.py line 34. -/
def requiredFields : List ReqField :=
  [ReqField.ticker, ReqField.plot_0, ReqField.plot_1, ReqField.plot_2]

inductive HttpResponse where
  | badRequest (required : List ReqField)
  | serverError
  | ok (outcome : Outcome)
  deriving DecidableEq

def statusCode : HttpResponse → ℕ
  | HttpResponse.badRequest _ => 400
  | HttpResponse.serverError => 500
  | HttpResponse.ok _ => 200

/-- Webhook endpoint, src/app.py lines 27-97: required-field check (400 on
failure, reporting the `required_fields` list), then float conversions of
`close` (defaulted to 0) and the three plots — a conversion failure is an
exception caught by the outer `except` as HTTP 500 — then the scoring
pipeline. -/
def webhook (p : Payload) (fund : FundMetrics) : HttpResponse :=
  if requiredFields.all (present p) then
    match toFloat (p.close.getD (JVal.num 0)), toFloat (p.plot_0.getD JVal.bad),
        toFloat (p.plot_1.getD JVal.bad), toFloat (p.plot_2.getD JVal.bad) with
    | some _, some r, some m, some v => HttpResponse.ok (processSignal r m v fund)
    | _, _, _, _ => HttpResponse.serverError
  else HttpResponse.badRequest requiredFields

/-- C1 (counterexample): at raw technical inputs RSI = -70, MACD = 0,
RVOL = 0 and total provider failure, the combined probability computed by
the webhook is 0.43, outside the claimed interval [0.5, 0.8] — the claimed
bound does not hold regardless of the raw technical input values. -/
theorem C1_counterexample :
    ml_prob (technical_score (-70) 0 0) (fundamental_score allFailedMetrics) < 0.5 := by
  with_unfolding_all decide

/-- C1 (amended): the combined probability always equals
`0.5 + 0.3*(0.7*technical_score + 0.3*fundamental_score)` and is always at
most 0.8; it is at least 0.5 whenever the technical score is non-negative
(negative raw technical inputs can push it below 0.5). -/
theorem C1_probability_formula_and_bounds (r m v : ℚ) (fund : FundMetrics) :
    ml_prob (technical_score r m v) (fundamental_score fund)
        = 0.5 + 0.3 * (0.7 * technical_score r m v + 0.3 * fundamental_score fund)
      ∧ ml_prob (technical_score r m v) (fundamental_score fund) ≤ 0.8
      ∧ (0 ≤ technical_score r m v →
          0.5 ≤ ml_prob (technical_score r m v) (fundamental_score fund)) := by
  refine ⟨by unfold ml_prob combined_score; ring, ?_, ?_⟩
  · have h1 := technical_score_le_one r m v
    have h2 := fundamental_score_le_one fund
    have h3 := ml_prob_le (technical_score r m v) (fundamental_score fund) h1 h2
    linarith
  · intro h
    have h3 := ml_prob_ge_half (technical_score r m v) (fundamental_score fund) h
      (fundamental_score_nonneg fund)
    linarith

/-- C1 (witness): the amended bound instantiated at RSI = 80, MACD = 1,
RVOL = 2 with total provider failure. -/
theorem C1_probability_formula_and_bounds_witness :
    0.5 ≤ ml_prob (technical_score 80 1 2) (fundamental_score allFailedMetrics) :=
  (C1_probability_formula_and_bounds 80 1 2 allFailedMetrics).2.2
    (by with_unfolding_all decide)

/-- C4: the fundamental score always lies in [0, 1]; total provider failure
yields score 0; the accumulated points decompose as an independent sum over
the seven sub-metrics, and each unavailable sub-metric contributes exactly 0
points, so one failed sub-metric cannot affect the contribution of the
others. -/
theorem C4_fundamental_robustness (m : FundMetrics) :
    (0 ≤ fundamental_score m ∧ fundamental_score m ≤ 1)
      ∧ fundamental_score allFailedMetrics = 0
      ∧ total_points m =
          volatility_points m.volatility + revenue_points m.revenue_growth +
            margin_points m.margin_trend + fcf_points m.fcf_growth +
            pe_points (pe_value m) + roe_points m.returnOnEquity +
            debt_points m.debtToEquity
      ∧ volatility_points none = 0 ∧ revenue_points none = 0
      ∧ margin_points none = 0 ∧ fcf_points none = 0
      ∧ pe_points (pe_value allFailedMetrics) = 0
      ∧ roe_points none = 0 ∧ debt_points none = 0 := by
  refine ⟨⟨fundamental_score_nonneg m, fundamental_score_le_one m⟩,
    by with_unfolding_all decide, rfl, rfl, rfl, rfl, rfl,
    by with_unfolding_all decide, by with_unfolding_all decide,
    by with_unfolding_all decide⟩

/-- C5: the technical score is exactly
`min(1, (r/70 + v/1.5 + (1 if m > 0 else 0))/3)`, a total function of the
three raw readings, and is at most 1 for every input. -/
theorem C5_technical_score_formula (r m v : ℚ) :
    technical_score r m v
        = min 1 ((r / 70 + v / 1.5 + (if m > 0 then 1 else 0)) / 3)
      ∧ technical_score r m v ≤ 1 := by
  constructor
  · unfold technical_score
    norm_num
  · exact technical_score_le_one r m v

/-- C6 (counterexample): at probability 0.6 the position sizer does not
return the exact Kelly value `max(0, (0.6*(2.8+1)-1)/2.8) = 16/35`: it
returns that value rounded to 4 decimal places (0.4571). -/
theorem C6_counterexample :
    quant_analysis 0.6 ≠ max 0 ((0.6 * (2.8 + 1) - 1) / 2.8) := by
  with_unfolding_all decide

/-- C6 (amended): for every probability the position sizer returns the
Kelly fraction `max(0, (p*(b+1)-1)/b)` with b = 2.8 rounded to 4 decimal
places, and the returned fraction is never negative. -/
theorem C6_kelly_rounded_nonneg (p : ℚ) :
    quant_analysis p = pyround (max 0 ((p * (2.8 + 1) - 1) / 2.8)) 4
      ∧ 0 ≤ quant_analysis p := by
  refine ⟨rfl, ?_⟩
  unfold quant_analysis
  exact pyround_nonneg _ _ (le_max_left 0 _)

/-- C7: the point accumulation agrees with the spec's weight table (each row
modelled literally with two-sided interval conditions), and the final score
is `min(1.0, accumulated_points / 10)`. -/
theorem C7_weight_table (m : FundMetrics) :
    fundamental_score m = min 1.0 (spec_points m / 10) := by
  rw [fundamental_score_eq, total_points_eq_spec]

lemma processSignal_eq (r m v : ℚ) (fund : FundMetrics) :
    processSignal r m v fund =
      if quant_analysis (ml_prob (technical_score r m v) (fundamental_score fund)) < 0.01
      then
        Outcome.filtered
          (quant_analysis (ml_prob (technical_score r m v) (fundamental_score fund)))
          (ml_prob (technical_score r m v) (fundamental_score fund))
      else
        Outcome.processed
          (pyround (ml_prob (technical_score r m v) (fundamental_score fund)) 3)
          (pyround (technical_score r m v) 3) (pyround (fundamental_score fund) 3)
          (pyround
            (quant_analysis (ml_prob (technical_score r m v) (fundamental_score fund))) 4)
          (if ml_prob (technical_score r m v) (fundamental_score fund) ≥ THRESHOLD
            then Decision.TRADE else Decision.SKIP) := rfl

/-- C2: every processed signal ends as exactly one of filtered, TRADE or
SKIP; when not filtered the decision is TRADE iff the probability reaches
the 0.60 threshold and SKIP iff it does not; a filtered signal carries no
decision. -/
theorem C2_decision_taxonomy (r m v : ℚ) (fund : FundMetrics) :
    ((processSignal r m v fund).isFiltered = true
        ∨ (processSignal r m v fund).decisionOf = some Decision.TRADE
        ∨ (processSignal r m v fund).decisionOf = some Decision.SKIP)
      ∧ ((processSignal r m v fund).isFiltered = false →
          ((processSignal r m v fund).decisionOf = some Decision.TRADE
            ↔ THRESHOLD ≤ ml_prob (technical_score r m v) (fundamental_score fund)))
      ∧ ((processSignal r m v fund).isFiltered = false →
          ((processSignal r m v fund).decisionOf = some Decision.SKIP
            ↔ ml_prob (technical_score r m v) (fundamental_score fund) < THRESHOLD))
      ∧ ((processSignal r m v fund).isFiltered = true →
          (processSignal r m v fund).decisionOf = none) := by
  rw [processSignal_eq]
  by_cases hk :
      quant_analysis (ml_prob (technical_score r m v) (fundamental_score fund)) < 0.01
  · rw [if_pos hk]
    exact ⟨Or.inl rfl, fun h => by simp [Outcome.isFiltered] at h,
      fun h => by simp [Outcome.isFiltered] at h, fun _ => rfl⟩
  · rw [if_neg hk]
    by_cases ht :
        ml_prob (technical_score r m v) (fundamental_score fund) ≥ THRESHOLD
    · rw [if_pos ht]
      refine ⟨Or.inr (Or.inl rfl), fun _ => ⟨fun _ => ht, fun _ => rfl⟩, fun _ => ?_,
        fun h => by simp [Outcome.isFiltered] at h⟩
      constructor
      · intro h
        simp [Outcome.decisionOf] at h
      · intro h
        exact absurd ht (not_le.mpr h)
    · rw [if_neg ht]
      refine ⟨Or.inr (Or.inr rfl), fun _ => ?_, fun _ => ⟨fun _ => not_le.mp ht, fun _ => rfl⟩,
        fun h => by simp [Outcome.isFiltered] at h⟩
      constructor
      · intro h
        simp [Outcome.decisionOf] at h
      · intro h
        exact absurd h ht

/-- C2 (witness): the concrete signal RSI = 80, MACD = 1, RVOL = 2 with
total provider failure is not filtered and is decided TRADE. -/
theorem C2_decision_taxonomy_witness :
    (processSignal 80 1 2 allFailedMetrics).decisionOf = some Decision.TRADE :=
  ((C2_decision_taxonomy 80 1 2 allFailedMetrics).2.1
      (by with_unfolding_all decide)).mpr
    (by with_unfolding_all decide)

/-- C3: whenever the computed Kelly fraction is below 0.01 the pipeline
stops at the filter: the outcome is `filtered`, carrying exactly the
computed Kelly fraction and probability, and no trade/skip decision is
emitted — the threshold comparison is never reached. -/
theorem C3_kelly_filter (r m v : ℚ) (fund : FundMetrics)
    (h : quant_analysis (ml_prob (technical_score r m v) (fundamental_score fund)) < 0.01) :
    processSignal r m v fund
        = Outcome.filtered
            (quant_analysis (ml_prob (technical_score r m v) (fundamental_score fund)))
            (ml_prob (technical_score r m v) (fundamental_score fund))
      ∧ (processSignal r m v fund).decisionOf = none := by
  have hps := processSignal_eq r m v fund
  rw [if_pos h] at hps
  exact ⟨hps, by rw [hps]; rfl⟩

/-- C3 (witness): the extreme signal RSI = -700, MACD = 0, RVOL = 0 with
total provider failure has Kelly 0 < 0.01 and is filtered. -/
theorem C3_kelly_filter_witness :
    quant_analysis
        (ml_prob (technical_score (-700) 0 0) (fundamental_score allFailedMetrics)) < 0.01
      ∧ processSignal (-700) 0 0 allFailedMetrics
          = Outcome.filtered
              (quant_analysis
                (ml_prob (technical_score (-700) 0 0) (fundamental_score allFailedMetrics)))
              (ml_prob (technical_score (-700) 0 0) (fundamental_score allFailedMetrics)) :=
  ⟨by with_unfolding_all decide,
    (C3_kelly_filter (-700) 0 0 allFailedMetrics (by with_unfolding_all decide)).1⟩

/-- C8: the CAGR computation returns `none` (reported "unavailable") on a
series with fewer than 2 usable periods; on a series of N >= 2 periods it
returns `(last/first) ** (1/(N-1)) - 1` and the exponent denominator
N - 1 is at least 1, so the `1/years` division is never a division by
zero. -/
theorem C8_cagr_guard (pw : ℚ → ℚ → ℚ) (xs : List ℚ) :
    (xs.length < 2 → cagr pw xs = none)
      ∧ (2 ≤ xs.length →
          ∃ x0 xl : ℚ, ∃ yrs : ℕ,
            xs.head? = some x0 ∧ xs.getLast? = some xl
              ∧ yrs = xs.length - 1 ∧ 1 ≤ yrs
              ∧ cagr pw xs = some (pw (xl / x0) (1 / (yrs : ℚ)) - 1)) := by
  match xs with
  | [] => exact ⟨fun _ => rfl, fun h => by simp at h⟩
  | [a] => exact ⟨fun _ => rfl, fun h => by simp at h⟩
  | a :: b :: rest =>
      refine ⟨fun h => by simp at h; omega, fun _ => ?_⟩
      refine ⟨a, (b :: rest).getLast (List.cons_ne_nil b rest), rest.length + 1, rfl,
        ?_, by simp, by omega, ?_⟩
      · rw [List.getLast?_cons_cons, List.getLast?_eq_getLast]
      · simp only [cagr]
        push_cast
        rfl

/-- C8 (witness): a one-element series yields `none` and a two-element
series yields a value, via the guard theorem at a concrete power function. -/
theorem C8_cagr_guard_witness :
    cagr (fun a _e => a) [(1:ℚ)] = none
      ∧ cagr (fun a _e => a) [(1:ℚ), 2] ≠ none := by
  constructor
  · exact (C8_cagr_guard (fun a _e => a) [(1:ℚ)]).1 (by norm_num)
  · obtain ⟨x0, xl, yrs, -, -, -, -, heq⟩ :=
      (C8_cagr_guard (fun a _e => a) [(1:ℚ), 2]).2 (by norm_num)
    rw [heq]
    simp

/-- C9 (counterexample): a request carrying all required fields but a
malformed (non-numeric) value for `plot_0` is answered with HTTP 500 from
the blanket exception handler, not with the HTTP 400 the claim requires for
malformed required fields. -/
theorem C9_counterexample :
    statusCode
        (webhook
          ⟨some (JVal.num 1), none, none, some JVal.bad, some (JVal.num 0),
            some (JVal.num 0)⟩
          allFailedMetrics) = 500 := by
  with_unfolding_all decide

/-- C9 (amended): a request missing any required field is answered with
HTTP 400 carrying the required-fields list (which contains every missing
required field), independently of any market data, before any scoring; a
request with all required fields present but a value on which the float
conversion raises is answered with HTTP 500. -/
theorem C9_validation (p : Payload) (fund fund2 : FundMetrics) :
    (requiredFields.all (present p) = false →
        webhook p fund = HttpResponse.badRequest requiredFields
          ∧ webhook p fund = webhook p fund2
          ∧ ∀ f : ReqField, f ∈ requiredFields → present p f = false →
              f ∈ requiredFields)
      ∧ (requiredFields.all (present p) = true →
          (toFloat (p.close.getD (JVal.num 0)) = none
              ∨ toFloat (p.plot_0.getD JVal.bad) = none
              ∨ toFloat (p.plot_1.getD JVal.bad) = none
              ∨ toFloat (p.plot_2.getD JVal.bad) = none) →
          webhook p fund = HttpResponse.serverError) := by
  constructor
  · intro hmiss
    exact ⟨by simp [webhook, hmiss], by simp [webhook, hmiss], fun f hf _ => hf⟩
  · intro hall hbad
    unfold webhook
    rw [if_pos hall]
    rcases hc : toFloat (p.close.getD (JVal.num 0)) with _ | c <;>
      rcases h0 : toFloat (p.plot_0.getD JVal.bad) with _ | r0 <;>
        rcases h1 : toFloat (p.plot_1.getD JVal.bad) with _ | r1 <;>
          rcases h2 : toFloat (p.plot_2.getD JVal.bad) with _ | r2 <;>
            simp_all

/-- C9 (witness): a request missing `plot_0` is answered 400 with the
required-fields list; a request with a malformed `plot_0` is answered 500. -/
theorem C9_validation_witness :
    webhook ⟨some (JVal.num 1), none, none, none, some (JVal.num 0), some (JVal.num 0)⟩
        allFailedMetrics = HttpResponse.badRequest requiredFields
      ∧ webhook
          ⟨some (JVal.num 1), none, none, some JVal.bad, some (JVal.num 0),
            some (JVal.num 0)⟩
          allFailedMetrics = HttpResponse.serverError := by
  constructor
  · exact ((C9_validation
        ⟨some (JVal.num 1), none, none, none, some (JVal.num 0), some (JVal.num 0)⟩
        allFailedMetrics allFailedMetrics).1 (by with_unfolding_all decide)).1
  · exact (C9_validation
        ⟨some (JVal.num 1), none, none, some JVal.bad, some (JVal.num 0),
          some (JVal.num 0)⟩
        allFailedMetrics allFailedMetrics).2 (by with_unfolding_all decide)
      (Or.inr (Or.inl (by with_unfolding_all decide)))

lemma quant_lower (p : ℚ) (hp : 1/2 ≤ p) : 3214/10000 ≤ quant_analysis p := by
  have hx : (9:ℚ)/28 ≤ (p * (2.8 + 1) - 1) / 2.8 := by
    rw [div_le_div_iff₀ (by norm_num) (by norm_num)]
    linarith
  have hraw : (9:ℚ)/28 ≤ kelly_fraction p 2.8 :=
    le_trans hx (le_max_right 0 _)
  have h1 : ((3214:ℤ) : ℚ) ≤ kelly_fraction p 2.8 * 10 ^ 4 := by
    push_cast
    linarith
  have h2 := le_pyround_of_le (kelly_fraction p 2.8) 4 3214 h1
  unfold quant_analysis
  calc (3214:ℚ)/10000 = ((3214:ℤ):ℚ)/10^4 := by norm_num
    _ ≤ pyround (kelly_fraction p 2.8) 4 := h2

/-- C10 (counterexample): at technical and fundamental scores both 0 (which
are non-negative) the returned Kelly fraction is 0.3214, strictly below the
claimed bound `(0.5*(2.8+1)-1)/2.8 = 9/28`, because the sizer rounds to 4
decimal places. -/
theorem C10_counterexample :
    quant_analysis (ml_prob 0 0) < (0.5 * (2.8 + 1) - 1) / 2.8 := by
  with_unfolding_all decide

/-- C10 (amended): non-negative raw technical inputs give a non-negative
technical score; whenever the technical score is non-negative the
probability is at least 0.5 and the returned Kelly fraction is at least
0.3214 (the claimed formula value rounded down to 4 decimals), so the
filtered outcome is unreachable; a filtered outcome forces the technical
score below -1.09. -/
theorem C10_filter_unreachable (r m v : ℚ) (fund : FundMetrics) :
    (0 ≤ r → 0 ≤ v → 0 ≤ technical_score r m v)
      ∧ (0 ≤ technical_score r m v →
          0.5 ≤ ml_prob (technical_score r m v) (fundamental_score fund)
            ∧ 0.3214 ≤
                quant_analysis (ml_prob (technical_score r m v) (fundamental_score fund))
            ∧ (processSignal r m v fund).isFiltered = false)
      ∧ ((processSignal r m v fund).isFiltered = true →
          technical_score r m v < -1.09) := by
  refine ⟨fun hr hv => technical_score_nonneg r m v hr hv, fun hts => ?_, fun hf => ?_⟩
  · have hp := ml_prob_ge_half (technical_score r m v) (fundamental_score fund) hts
      (fundamental_score_nonneg fund)
    have hk := quant_lower (ml_prob (technical_score r m v) (fundamental_score fund)) hp
    refine ⟨by linarith, by linarith, ?_⟩
    rw [processSignal_eq, if_neg (not_lt.mpr (by linarith))]
    rfl
  · have hk :
        quant_analysis (ml_prob (technical_score r m v) (fundamental_score fund)) < 0.01 := by
      by_contra hk
      rw [processSignal_eq, if_neg hk] at hf
      simp [Outcome.isFiltered] at hf
    have h1 := pyround_lt_bound (kelly_fraction
      (ml_prob (technical_score r m v) (fundamental_score fund)) 2.8) 4 0.01 hk
    have h2 : (ml_prob (technical_score r m v) (fundamental_score fund) * (2.8 + 1) - 1) / 2.8
        ≤ kelly_fraction (ml_prob (technical_score r m v) (fundamental_score fund)) 2.8 :=
      le_max_right 0 _
    have h3 : (ml_prob (technical_score r m v) (fundamental_score fund) * (2.8 + 1) - 1) / 2.8
        < 201/20000 := by
      norm_num at h1
      linarith
    have h4 := (div_lt_iff₀ (show (0:ℚ) < 2.8 by norm_num)).mp h3
    have h5 : ml_prob (technical_score r m v) (fundamental_score fund)
        = 0.5 + (technical_score r m v * 0.7 + fundamental_score fund * 0.3) * 0.3 := by
      unfold ml_prob combined_score
      ring
    have h6 := fundamental_score_nonneg fund
    linarith

/-- C10 (witness): the amended bounds at RSI = 80, MACD = 1, RVOL = 2 with
total provider failure: non-negative technical score and not filtered. -/
theorem C10_filter_unreachable_witness :
    0 ≤ technical_score 80 1 2
      ∧ (processSignal 80 1 2 allFailedMetrics).isFiltered = false := by
  constructor
  · exact (C10_filter_unreachable 80 1 2 allFailedMetrics).1 (by norm_num) (by norm_num)
  · exact ((C10_filter_unreachable 80 1 2 allFailedMetrics).2.1
      (by with_unfolding_all decide)).2.2

end Vaderboot
